import Mathlib

/-
Verification of the academic-records application (alunos / cursos / matriculas).

The development shallowly embeds:
* the database schema, triggers and row-level-security (RLS) policies of the
  SQL migration (tables profiles, user_roles, cursos, alunos, matriculas;
  functions has_role, update_updated_at_column, handle_new_user);
* the client data-access modules (CursosManager, AlunosManager,
  MatriculasManager): their zod shape validation, the requests they issue and
  the toasts they show on the store's reply.

Identifiers as strings stand in for UUIDs; timestamps are naturals.
-/

namespace AcademicApp

/-- The app_role enum of the migration: ('admin', 'leitor'). -/
inductive AppRole
  | admin
  | leitor
deriving DecidableEq, Repr

/-- The status_matricula enum: ('ATIVO', 'INATIVO', 'TRANCADO', 'FORMADO'). -/
inductive StatusMatricula
  | ATIVO
  | INATIVO
  | TRANCADO
  | FORMADO
deriving DecidableEq, Repr

/-- A row of public.profiles. -/
structure Profile where
  id : String
  nome_completo : String
  email : String
  created_at : Nat
  updated_at : Nat
deriving DecidableEq, Repr

/-- A row of public.user_roles. -/
structure UserRole where
  id : String
  user_id : String
  role : AppRole
  created_at : Nat
deriving DecidableEq, Repr

/-- A row of public.cursos.  Note: duracao_semestres is INTEGER NOT NULL with
no CHECK constraint in the schema. -/
structure Curso where
  id : String
  nome : String
  codigo_curso : String
  duracao_semestres : Int
  created_at : Nat
  updated_at : Nat
deriving DecidableEq, Repr

/-- A row of public.alunos. -/
structure Aluno where
  id : String
  nome_completo : String
  matricula : String
  cpf : String
  email : String
  data_nascimento : String
  telefone : Option String
  status : StatusMatricula
  created_at : Nat
  updated_at : Nat
deriving DecidableEq, Repr

/-- A row of public.matriculas. -/
structure Matricula where
  id : String
  aluno_id : String
  curso_id : String
  ano_ingresso : Int
  semestre_ingresso : Int
  data_matricula : Nat
deriving DecidableEq, Repr

/-- A row of auth.users (the external auth provider's table, as seen by the
on_auth_user_created trigger): id, email and the raw_user_meta_data key
'nome_completo'. -/
structure AuthUser where
  id : String
  email : String
  raw_meta_nome_completo : Option String
deriving DecidableEq, Repr

/-- The database state: auth.users plus the five public tables. -/
structure DB where
  auth_users : List AuthUser
  profiles : List Profile
  user_roles : List UserRole
  cursos : List Curso
  alunos : List Aluno
  matriculas : List Matricula
deriving DecidableEq, Repr

def emptyDB : DB := ⟨[], [], [], [], [], []⟩

/-- public.has_role(_user_id, _role): SELECT EXISTS (... FROM user_roles WHERE
user_id = _user_id AND role = _role).  SECURITY DEFINER, so it reads
user_roles without recursive policy evaluation. -/
def has_role (db : DB) (user_id : String) (role : AppRole) : Bool :=
  db.user_roles.any (fun ur => ur.user_id == user_id && ur.role == role)

/-- has_role applied to auth.uid(), which is NULL for an unauthenticated
caller (no role row matches NULL). -/
def authHasRole (db : DB) (uid : Option String) (role : AppRole) : Bool :=
  match uid with
  | none => false
  | some u => has_role db u role

/-- SQL statement kinds policed by RLS. -/
inductive Cmd
  | select
  | insert
  | update
  | delete
deriving DecidableEq, Repr

/-- One CREATE POLICY statement: the commands it applies to (FOR SELECT /
FOR UPDATE / FOR ALL), whether it is restricted TO authenticated, and its
USING predicate over (db, auth.uid(), row). -/
structure Policy (α : Type) where
  appliesTo : Cmd → Bool
  toAuthenticated : Bool
  usingPred : DB → Option String → α → Bool

def forAllCmds : Cmd → Bool := fun _ => true

def forSelect : Cmd → Bool := fun c =>
  match c with
  | Cmd.select => true
  | _ => false

def forUpdate : Cmd → Bool := fun c =>
  match c with
  | Cmd.update => true
  | _ => false

/-- Policies on public.profiles:
"Usuários podem ver seu próprio perfil" (SELECT, auth.uid() = id),
"Usuários podem atualizar seu próprio perfil" (UPDATE, auth.uid() = id),
"Admins podem ver todos os perfis" (SELECT, has_role(auth.uid(), 'admin')). -/
def profilesPolicies : List (Policy Profile) :=
  [ ⟨forSelect, false, fun _ uid row => uid == some row.id⟩,
    ⟨forUpdate, false, fun _ uid row => uid == some row.id⟩,
    ⟨forSelect, false, fun db uid _ => authHasRole db uid AppRole.admin⟩ ]

/-- Policies on public.user_roles:
"Admins podem gerenciar roles" (ALL, has_role(auth.uid(), 'admin')),
"Usuários podem ver suas próprias roles" (SELECT, auth.uid() = user_id). -/
def userRolesPolicies : List (Policy UserRole) :=
  [ ⟨forAllCmds, false, fun db uid _ => authHasRole db uid AppRole.admin⟩,
    ⟨forSelect, false, fun _ uid row => uid == some row.user_id⟩ ]

/-- Policies on public.cursos:
"Todos autenticados podem ver cursos" (SELECT TO authenticated, true),
"Admins podem gerenciar cursos" (ALL, has_role(auth.uid(), 'admin')). -/
def cursosPolicies : List (Policy Curso) :=
  [ ⟨forSelect, true, fun _ _ _ => true⟩,
    ⟨forAllCmds, false, fun db uid _ => authHasRole db uid AppRole.admin⟩ ]

/-- Policies on public.alunos (same shape as cursos). -/
def alunosPolicies : List (Policy Aluno) :=
  [ ⟨forSelect, true, fun _ _ _ => true⟩,
    ⟨forAllCmds, false, fun db uid _ => authHasRole db uid AppRole.admin⟩ ]

/-- Policies on public.matriculas (same shape as cursos). -/
def matriculasPolicies : List (Policy Matricula) :=
  [ ⟨forSelect, true, fun _ _ _ => true⟩,
    ⟨forAllCmds, false, fun db uid _ => authHasRole db uid AppRole.admin⟩ ]

/-- Permissive-policy evaluation: a statement of kind c on a row is allowed
iff some policy applies to c, passes the TO authenticated restriction, and
its USING predicate holds.  With no matching policy the default is deny. -/
def allowed {α : Type} (ps : List (Policy α)) (db : DB) (uid : Option String)
    (c : Cmd) (row : α) : Bool :=
  ps.any fun p => p.appliesTo c && (!p.toAuthenticated || uid.isSome) && p.usingPred db uid row

/-- Store-side errors a statement can raise. -/
inductive DbError
  | policyDenied
  | uniqueViolation (msg : String)
  | fkViolation (msg : String)
  | checkViolation (msg : String)
deriving DecidableEq, Repr

/-- The error message as carried by the client error object. -/
def DbError.message : DbError → String
  | .policyDenied => "new row violates row-level security policy"
  | .uniqueViolation m => m
  | .fkViolation m => m
  | .checkViolation m => m

/-- The state after a statement: the new state on success, the old state when
the statement raised an error (the transaction aborts). -/
def applyResult (db : DB) : Except DbError DB → DB
  | .ok db2 => db2
  | .error _ => db

-- ===== Server-side mutations: RLS check, then constraints, then write =====

/-- INSERT INTO cursos.  RLS insert check first, then the UNIQUE constraints
on nome, codigo_curso and the primary key.  There is no constraint on
duracao_semestres. -/
def insertCurso (db : DB) (uid : Option String) (c : Curso) : Except DbError DB :=
  if !(allowed cursosPolicies db uid Cmd.insert c) then
    .error .policyDenied
  else if db.cursos.any (fun x => x.nome == c.nome) then
    .error (.uniqueViolation "duplicate key value violates unique constraint cursos_nome_key")
  else if db.cursos.any (fun x => x.codigo_curso == c.codigo_curso) then
    .error (.uniqueViolation "duplicate key value violates unique constraint cursos_codigo_curso_key")
  else if db.cursos.any (fun x => x.id == c.id) then
    .error (.uniqueViolation "duplicate key value violates unique constraint cursos_pkey")
  else
    .ok { db with cursos := c :: db.cursos }

/-- INSERT INTO alunos: RLS, then UNIQUE matricula / cpf / email / pkey. -/
def insertAluno (db : DB) (uid : Option String) (a : Aluno) : Except DbError DB :=
  if !(allowed alunosPolicies db uid Cmd.insert a) then
    .error .policyDenied
  else if db.alunos.any (fun x => x.matricula == a.matricula) then
    .error (.uniqueViolation "duplicate key value violates unique constraint alunos_matricula_key")
  else if db.alunos.any (fun x => x.cpf == a.cpf) then
    .error (.uniqueViolation "duplicate key value violates unique constraint alunos_cpf_key")
  else if db.alunos.any (fun x => x.email == a.email) then
    .error (.uniqueViolation "duplicate key value violates unique constraint alunos_email_key")
  else if db.alunos.any (fun x => x.id == a.id) then
    .error (.uniqueViolation "duplicate key value violates unique constraint alunos_pkey")
  else
    .ok { db with alunos := a :: db.alunos }

/-- INSERT INTO matriculas: RLS, then the CHECK on semestre_ingresso, then
UNIQUE(aluno_id, curso_id) and the primary key, then the two foreign keys
(referential checks run after index maintenance). -/
def insertMatricula (db : DB) (uid : Option String) (m : Matricula) : Except DbError DB :=
  if !(allowed matriculasPolicies db uid Cmd.insert m) then
    .error .policyDenied
  else if !(m.semestre_ingresso == 1 || m.semestre_ingresso == 2) then
    .error (.checkViolation "new row for relation matriculas violates check constraint matriculas_semestre_ingresso_check")
  else if db.matriculas.any (fun x => x.aluno_id == m.aluno_id && x.curso_id == m.curso_id) then
    .error (.uniqueViolation "duplicate key value violates unique constraint matriculas_aluno_id_curso_id_key")
  else if db.matriculas.any (fun x => x.id == m.id) then
    .error (.uniqueViolation "duplicate key value violates unique constraint matriculas_pkey")
  else if !(db.alunos.any (fun a => a.id == m.aluno_id)) then
    .error (.fkViolation "insert or update on table matriculas violates foreign key constraint matriculas_aluno_id_fkey")
  else if !(db.cursos.any (fun c => c.id == m.curso_id)) then
    .error (.fkViolation "insert or update on table matriculas violates foreign key constraint matriculas_curso_id_fkey")
  else
    .ok { db with matriculas := m :: db.matriculas }

/-- INSERT INTO user_roles: RLS, then UNIQUE(user_id, role), pkey, FK. -/
def insertUserRole (db : DB) (uid : Option String) (ur : UserRole) : Except DbError DB :=
  if !(allowed userRolesPolicies db uid Cmd.insert ur) then
    .error .policyDenied
  else if db.user_roles.any (fun x => x.user_id == ur.user_id && x.role == ur.role) then
    .error (.uniqueViolation "duplicate key value violates unique constraint user_roles_user_id_role_key")
  else if db.user_roles.any (fun x => x.id == ur.id) then
    .error (.uniqueViolation "duplicate key value violates unique constraint user_roles_pkey")
  else if !(db.profiles.any (fun p => p.id == ur.user_id)) then
    .error (.fkViolation "insert or update on table user_roles violates foreign key constraint user_roles_user_id_fkey")
  else
    .ok { db with user_roles := ur :: db.user_roles }

-- ===== The update_updated_at_column trigger (BEFORE UPDATE) =====

/-- update_updated_at_column on profiles: NEW.updated_at = NOW(). -/
def update_updated_at_profile (new_ : Profile) (now : Nat) : Profile :=
  { new_ with updated_at := now }

/-- update_updated_at_column on cursos: NEW.updated_at = NOW(). -/
def update_updated_at_curso (new_ : Curso) (now : Nat) : Curso :=
  { new_ with updated_at := now }

/-- update_updated_at_column on alunos: NEW.updated_at = NOW(). -/
def update_updated_at_aluno (new_ : Aluno) (now : Nat) : Aluno :=
  { new_ with updated_at := now }

-- ===== Server-side UPDATE / DELETE =====
-- Under RLS, UPDATE and DELETE simply do not see rows whose USING predicate
-- fails: those rows are left untouched and no error is raised (zero rows
-- affected).  Constraint violations on the written rows do raise errors.

/-- Which cursos rows an UPDATE ... WHERE id = cid touches for this caller. -/
def cursoUpdTarget (db : DB) (uid : Option String) (cid : String) (c : Curso) : Bool :=
  c.id == cid && allowed cursosPolicies db uid Cmd.update c

/-- UPDATE cursos SET ... WHERE id = cid.  assign is the SET list; the
BEFORE UPDATE trigger then overwrites updated_at with NOW().  A UNIQUE
collision of a written row with an untouched row aborts the statement. -/
def updateCurso (db : DB) (uid : Option String) (cid : String)
    (assign : Curso → Curso) (now : Nat) : Except DbError DB :=
  let tgt := cursoUpdTarget db uid cid
  let newRow := fun c => update_updated_at_curso (assign c) now
  if db.cursos.any (fun c => tgt c &&
      db.cursos.any (fun x => !(x.id == c.id) &&
        ((newRow c).nome == x.nome || (newRow c).codigo_curso == x.codigo_curso))) then
    .error (.uniqueViolation "duplicate key value violates unique constraint cursos_nome_key")
  else
    .ok { db with cursos := db.cursos.map (fun c => if tgt c then newRow c else c) }

/-- Which alunos rows an UPDATE ... WHERE id = aid touches for this caller. -/
def alunoUpdTarget (db : DB) (uid : Option String) (aid : String) (a : Aluno) : Bool :=
  a.id == aid && allowed alunosPolicies db uid Cmd.update a

/-- UPDATE alunos SET ... WHERE id = aid, with the updated_at trigger and the
UNIQUE constraints on matricula / cpf / email. -/
def updateAluno (db : DB) (uid : Option String) (aid : String)
    (assign : Aluno → Aluno) (now : Nat) : Except DbError DB :=
  let tgt := alunoUpdTarget db uid aid
  let newRow := fun a => update_updated_at_aluno (assign a) now
  if db.alunos.any (fun a => tgt a &&
      db.alunos.any (fun x => !(x.id == a.id) &&
        ((newRow a).matricula == x.matricula || (newRow a).cpf == x.cpf ||
         (newRow a).email == x.email))) then
    .error (.uniqueViolation "duplicate key value violates unique constraint alunos_matricula_key")
  else
    .ok { db with alunos := db.alunos.map (fun a => if tgt a then newRow a else a) }

/-- Which profiles rows an UPDATE ... WHERE id = pid touches for this caller. -/
def profileUpdTarget (db : DB) (uid : Option String) (pid : String) (p : Profile) : Bool :=
  p.id == pid && allowed profilesPolicies db uid Cmd.update p

/-- UPDATE profiles SET ... WHERE id = pid, with the updated_at trigger and
the UNIQUE constraint on email. -/
def updateProfile (db : DB) (uid : Option String) (pid : String)
    (assign : Profile → Profile) (now : Nat) : Except DbError DB :=
  let tgt := profileUpdTarget db uid pid
  let newRow := fun p => update_updated_at_profile (assign p) now
  if db.profiles.any (fun p => tgt p &&
      db.profiles.any (fun x => !(x.id == p.id) && (newRow p).email == x.email)) then
    .error (.uniqueViolation "duplicate key value violates unique constraint profiles_email_key")
  else
    .ok { db with profiles := db.profiles.map (fun p => if tgt p then newRow p else p) }

/-- Which matriculas rows an UPDATE ... WHERE id = mid touches. -/
def matriculaUpdTarget (db : DB) (uid : Option String) (mid : String) (m : Matricula) : Bool :=
  m.id == mid && allowed matriculasPolicies db uid Cmd.update m

/-- UPDATE matriculas SET ... WHERE id = mid (no updated_at column), with the
UNIQUE(aluno_id, curso_id) constraint. -/
def updateMatricula (db : DB) (uid : Option String) (mid : String)
    (assign : Matricula → Matricula) : Except DbError DB :=
  let tgt := matriculaUpdTarget db uid mid
  if db.matriculas.any (fun m => tgt m &&
      db.matriculas.any (fun x => !(x.id == m.id) &&
        (assign m).aluno_id == x.aluno_id && (assign m).curso_id == x.curso_id)) then
    .error (.uniqueViolation "duplicate key value violates unique constraint matriculas_aluno_id_curso_id_key")
  else
    .ok { db with matriculas := db.matriculas.map (fun m => if tgt m then assign m else m) }

/-- Which user_roles rows an UPDATE ... WHERE id = rid touches. -/
def userRoleUpdTarget (db : DB) (uid : Option String) (rid : String) (ur : UserRole) : Bool :=
  ur.id == rid && allowed userRolesPolicies db uid Cmd.update ur

/-- UPDATE user_roles SET ... WHERE id = rid, with UNIQUE(user_id, role). -/
def updateUserRole (db : DB) (uid : Option String) (rid : String)
    (assign : UserRole → UserRole) : Except DbError DB :=
  let tgt := userRoleUpdTarget db uid rid
  if db.user_roles.any (fun ur => tgt ur &&
      db.user_roles.any (fun x => !(x.id == ur.id) &&
        (assign ur).user_id == x.user_id && (assign ur).role == x.role)) then
    .error (.uniqueViolation "duplicate key value violates unique constraint user_roles_user_id_role_key")
  else
    .ok { db with user_roles := db.user_roles.map (fun ur => if tgt ur then assign ur else ur) }

/-- DELETE FROM cursos WHERE id = cid.  The caller deletes exactly the rows
visible to its delete policy; matriculas.curso_id is declared
ON DELETE CASCADE, so enrollments of a deleted course are removed too.
A cascade never raises a foreign-key violation. -/
def deleteCurso (db : DB) (uid : Option String) (cid : String) : Except DbError DB :=
  let deletedIds := (db.cursos.filter
    (fun c => c.id == cid && allowed cursosPolicies db uid Cmd.delete c)).map (fun c => c.id)
  .ok { db with
    cursos := db.cursos.filter (fun c => !(deletedIds.contains c.id)),
    matriculas := db.matriculas.filter (fun m => !(deletedIds.contains m.curso_id)) }

/-- DELETE FROM alunos WHERE id = aid, cascading to matriculas.aluno_id. -/
def deleteAluno (db : DB) (uid : Option String) (aid : String) : Except DbError DB :=
  let deletedIds := (db.alunos.filter
    (fun a => a.id == aid && allowed alunosPolicies db uid Cmd.delete a)).map (fun a => a.id)
  .ok { db with
    alunos := db.alunos.filter (fun a => !(deletedIds.contains a.id)),
    matriculas := db.matriculas.filter (fun m => !(deletedIds.contains m.aluno_id)) }

/-- DELETE FROM matriculas WHERE id = mid (nothing references matriculas). -/
def deleteMatricula (db : DB) (uid : Option String) (mid : String) : Except DbError DB :=
  .ok { db with matriculas :=
    db.matriculas.filter (fun m => !(m.id == mid && allowed matriculasPolicies db uid Cmd.delete m)) }

/-- DELETE FROM user_roles WHERE id = rid (nothing references user_roles). -/
def deleteUserRole (db : DB) (uid : Option String) (rid : String) : Except DbError DB :=
  .ok { db with user_roles :=
    db.user_roles.filter (fun ur => !(ur.id == rid && allowed userRolesPolicies db uid Cmd.delete ur)) }

-- ===== The provisioning trigger =====

/-- The profile row handle_new_user builds for a new auth user:
id = NEW.id, nome_completo = COALESCE(raw_user_meta_data->>'nome_completo',
'Usuário'), email = NEW.email; timestamps DEFAULT NOW(). -/
def newProfileOf (nu : AuthUser) (now : Nat) : Profile :=
  { id := nu.id,
    nome_completo := nu.raw_meta_nome_completo.getD "Usuário",
    email := nu.email,
    created_at := now,
    updated_at := now }

/-- public.handle_new_user: INSERT INTO profiles (id, nome_completo, email).
SECURITY DEFINER, so it bypasses the profiles RLS policies; the pkey and the
UNIQUE email constraint still apply. -/
def handle_new_user (db : DB) (nu : AuthUser) (now : Nat) : Except DbError DB :=
  let p := newProfileOf nu now
  if db.profiles.any (fun q => q.id == p.id) then
    .error (.uniqueViolation "duplicate key value violates unique constraint profiles_pkey")
  else if db.profiles.any (fun q => q.email == p.email) then
    .error (.uniqueViolation "duplicate key value violates unique constraint profiles_email_key")
  else
    .ok { db with profiles := p :: db.profiles }

/-- Creation of an auth subject: the row is inserted into auth.users and the
AFTER INSERT trigger on_auth_user_created runs handle_new_user inside the
same transaction — if the profile insert fails, the whole creation fails and
no row of either table is kept. -/
def createAuthUser (db : DB) (nu : AuthUser) (now : Nat) : Except DbError DB :=
  if db.auth_users.any (fun u => u.id == nu.id) then
    .error (.uniqueViolation "duplicate key value violates unique constraint users_pkey")
  else
    handle_new_user { db with auth_users := nu :: db.auth_users } nu now

-- ===== Client layer: zod schemas, form handlers, toasts =====

/-- The cursos form state (CursosManager formData); duracao_semestres comes
through parseInt, hence an integer. -/
structure CursoForm where
  nome : String
  codigo_curso : String
  duracao_semestres : Int
deriving DecidableEq, Repr

/-- cursoSchema.parse: first violation in field order, or none.
nome: min 3; codigo_curso: min 2; duracao_semestres: min 1. -/
def cursoSchemaCheck (f : CursoForm) : Option String :=
  if f.nome.length < 3 then some "Nome deve ter no mínimo 3 caracteres"
  else if f.codigo_curso.length < 2 then some "Código deve ter no mínimo 2 caracteres"
  else if f.duracao_semestres < 1 then some "Duração deve ser no mínimo 1 semestre"
  else none

/-- The alunos form state (AlunosManager formData). -/
structure AlunoForm where
  nome_completo : String
  matricula : String
  cpf : String
  email : String
  data_nascimento : String
  telefone : String
  status : StatusMatricula
deriving DecidableEq, Repr

/-- The regex ^[0-9]{4}-[12]-[0-9]{4}$ of alunoSchema's matricula field. -/
def matriculaFormatOk (s : String) : Bool :=
  match s.toList with
  | [a, b, c, d, h1, t, h2, e, f, g, i] =>
    a.isDigit && b.isDigit && c.isDigit && d.isDigit && h1 == '-' &&
    (t == '1' || t == '2') && h2 == '-' &&
    e.isDigit && f.isDigit && g.isDigit && i.isDigit
  | _ => false

/-- The regex of alunoSchema's cpf field: three dot-separated groups of three
digits, a dash, two digits. -/
def cpfFormatOk (s : String) : Bool :=
  match s.toList with
  | [a, b, c, p1, d, e, f, p2, g, h, i, da, j, k] =>
    a.isDigit && b.isDigit && c.isDigit && p1 == '.' &&
    d.isDigit && e.isDigit && f.isDigit && p2 == '.' &&
    g.isDigit && h.isDigit && i.isDigit && da == '-' &&
    j.isDigit && k.isDigit
  | _ => false

/-- Splitting a character list on a separator (the splits of s.split('@')). -/
def splitOnChar (sep : Char) : List Char → List (List Char)
  | [] => [[]]
  | c :: cs =>
    match splitOnChar sep cs with
    | [] => if c == sep then [[], []] else [[c]]
    | r :: rs => if c == sep then [] :: r :: rs else (c :: r) :: rs

/-- Models the external zod library's z.string().email() validator: a
nonempty local part, a single '@', and a domain that contains a dot and does
not start or end with one. -/
def zodEmailOk (s : String) : Bool :=
  match splitOnChar '@' s.toList with
  | [lp, dom] =>
    lp.length > 0 && dom.length > 0 && dom.contains '.' &&
    !(dom.take 1 == ['.']) && !(dom.reverse.take 1 == ['.'])
  | _ => false

/-- alunoSchema.parse: first violation in field order, or none.
data_nascimento and telefone are unconstrained strings and status is already
one of the four enum values by typing. -/
def alunoSchemaCheck (f : AlunoForm) : Option String :=
  if f.nome_completo.length < 3 then some "Nome deve ter no mínimo 3 caracteres"
  else if !(matriculaFormatOk f.matricula) then some "Formato: AAAA-S-NNNN (ex: 2025-1-1234)"
  else if !(cpfFormatOk f.cpf) then some "Formato: XXX.XXX.XXX-XX"
  else if !(zodEmailOk f.email) then some "Email inválido"
  else none

/-- The matriculas form state (MatriculasManager formData): raw select values
for the ids (the empty string when nothing is selected). -/
structure MatriculaForm where
  aluno_id : String
  curso_id : String
  ano_ingresso : Int
  semestre_ingresso : Int
deriving DecidableEq, Repr

/-- What the client shows for one user action. -/
inductive ClientOutcome
  | validationToast (msg : String)
  | successToast (title : String)
  | errorToast (title : String) (description : String)
  | silent
deriving DecidableEq, Repr

/-- The visible result of a handler: whether a network request was issued,
the toast (if any), and the resulting database state. -/
structure ClientResult where
  requestSent : Bool
  outcome : ClientOutcome
  db : DB
deriving DecidableEq, Repr

/-- Character-list version of substring search. -/
def charsStartWith : List Char → List Char → Bool
  | _, [] => true
  | [], _ :: _ => false
  | a :: as, b :: bs => a == b && charsStartWith as bs

/-- Does the first list contain the second as a contiguous subsequence? -/
def charsContainSeq : List Char → List Char → Bool
  | [], needle => needle.isEmpty
  | a :: rest, needle => charsStartWith (a :: rest) needle || charsContainSeq rest needle

/-- error.message.includes(needle) of the client code. -/
def strContains (hay needle : String) : Bool :=
  charsContainSeq hay.toList needle.toList

/-- The curso row the client insert builds from the form (id and timestamps
come from the column defaults gen_random_uuid() / NOW()). -/
def cursoOfForm (f : CursoForm) (newId : String) (now : Nat) : Curso :=
  ⟨newId, f.nome, f.codigo_curso, f.duracao_semestres, now, now⟩

/-- The SET list of the client's update(formData) on cursos. -/
def cursoAssignOfForm (f : CursoForm) : Curso → Curso := fun c =>
  { c with nome := f.nome, codigo_curso := f.codigo_curso,
           duracao_semestres := f.duracao_semestres }

/-- CursosManager.handleSubmit, create branch: parse with cursoSchema (a
ZodError shows the first issue and sends nothing), then insert, then toast. -/
def cursosHandleSubmitCreate (db : DB) (uid : Option String) (f : CursoForm)
    (newId : String) (now : Nat) : ClientResult :=
  match cursoSchemaCheck f with
  | some msg => ⟨false, .validationToast msg, db⟩
  | none =>
    match insertCurso db uid (cursoOfForm f newId now) with
    | .ok db2 => ⟨true, .successToast "Curso cadastrado com sucesso!", db2⟩
    | .error e => ⟨true, .errorToast "Erro ao salvar curso" e.message, db⟩

/-- CursosManager.handleSubmit, edit branch: parse, then update ... eq(id). -/
def cursosHandleSubmitUpdate (db : DB) (uid : Option String) (editId : String)
    (f : CursoForm) (now : Nat) : ClientResult :=
  match cursoSchemaCheck f with
  | some msg => ⟨false, .validationToast msg, db⟩
  | none =>
    match updateCurso db uid editId (cursoAssignOfForm f) now with
    | .ok db2 => ⟨true, .successToast "Curso atualizado com sucesso!", db2⟩
    | .error e => ⟨true, .errorToast "Erro ao salvar curso" e.message, db⟩

/-- CursosManager.handleDelete after the store replied: an error shows the
fixed hint about enrolled students, success shows a success toast. -/
def cursosHandleDeleteResp (db : DB) (resp : Except DbError DB) : ClientResult :=
  match resp with
  | .ok db2 => ⟨true, .successToast "Curso excluído com sucesso!", db2⟩
  | .error _ => ⟨true, .errorToast "Erro ao excluir curso" "Pode haver alunos matriculados neste curso", db⟩

/-- CursosManager.handleDelete (after the confirm dialog). -/
def cursosHandleDelete (db : DB) (uid : Option String) (cid : String) : ClientResult :=
  cursosHandleDeleteResp db (deleteCurso db uid cid)

/-- The aluno row the client insert builds from the form. -/
def alunoOfForm (f : AlunoForm) (newId : String) (now : Nat) : Aluno :=
  ⟨newId, f.nome_completo, f.matricula, f.cpf, f.email, f.data_nascimento,
   some f.telefone, f.status, now, now⟩

/-- The SET list of the client's update(formData) on alunos. -/
def alunoAssignOfForm (f : AlunoForm) : Aluno → Aluno := fun a =>
  { a with nome_completo := f.nome_completo, matricula := f.matricula,
           cpf := f.cpf, email := f.email, data_nascimento := f.data_nascimento,
           telefone := some f.telefone, status := f.status }

/-- AlunosManager.handleSubmit, create branch. -/
def alunosHandleSubmitCreate (db : DB) (uid : Option String) (f : AlunoForm)
    (newId : String) (now : Nat) : ClientResult :=
  match alunoSchemaCheck f with
  | some msg => ⟨false, .validationToast msg, db⟩
  | none =>
    match insertAluno db uid (alunoOfForm f newId now) with
    | .ok db2 => ⟨true, .successToast "Aluno cadastrado com sucesso!", db2⟩
    | .error e => ⟨true, .errorToast "Erro ao salvar aluno" e.message, db⟩

/-- AlunosManager.handleSubmit, edit branch. -/
def alunosHandleSubmitUpdate (db : DB) (uid : Option String) (editId : String)
    (f : AlunoForm) (now : Nat) : ClientResult :=
  match alunoSchemaCheck f with
  | some msg => ⟨false, .validationToast msg, db⟩
  | none =>
    match updateAluno db uid editId (alunoAssignOfForm f) now with
    | .ok db2 => ⟨true, .successToast "Aluno atualizado com sucesso!", db2⟩
    | .error e => ⟨true, .errorToast "Erro ao salvar aluno" e.message, db⟩

/-- AlunosManager.handleDelete after the store replied: the code only has
an if (!error) success branch — a store error produces no toast at all. -/
def alunosHandleDeleteResp (db : DB) (resp : Except DbError DB) : ClientResult :=
  match resp with
  | .ok db2 => ⟨true, .successToast "Aluno desativado com sucesso!", db2⟩
  | .error _ => ⟨true, .silent, db⟩

/-- AlunosManager.handleDelete: a soft delete — update({ status: 'INATIVO' })
.eq('id', id). -/
def alunosHandleDelete (db : DB) (uid : Option String) (aid : String)
    (now : Nat) : ClientResult :=
  alunosHandleDeleteResp db
    (updateAluno db uid aid (fun a => { a with status := StatusMatricula.INATIVO }) now)

/-- The matricula row the client insert builds from the form. -/
def matriculaOfForm (f : MatriculaForm) (newId : String) (now : Nat) : Matricula :=
  ⟨newId, f.aluno_id, f.curso_id, f.ano_ingresso, f.semestre_ingresso, now⟩

/-- MatriculasManager.handleSubmit: no schema parse — the insert is issued
directly; a store error whose message includes 'duplicate' gets the friendly
already-enrolled description, any other error message is shown verbatim. -/
def matriculasHandleSubmit (db : DB) (uid : Option String) (f : MatriculaForm)
    (newId : String) (now : Nat) : ClientResult :=
  match insertMatricula db uid (matriculaOfForm f newId now) with
  | .ok db2 => ⟨true, .successToast "Matrícula realizada com sucesso!", db2⟩
  | .error e => ⟨true, .errorToast "Erro ao matricular"
      (if strContains e.message "duplicate" then "Aluno já está matriculado neste curso"
       else e.message), db⟩

/-- MatriculasManager.handleDelete after the store replied: only an
if (!error) success branch — a store error produces no toast at all. -/
def matriculasHandleDeleteResp (db : DB) (resp : Except DbError DB) : ClientResult :=
  match resp with
  | .ok db2 => ⟨true, .successToast "Matrícula excluída com sucesso!", db2⟩
  | .error _ => ⟨true, .silent, db⟩

/-- MatriculasManager.handleDelete. -/
def matriculasHandleDelete (db : DB) (uid : Option String) (mid : String) : ClientResult :=
  matriculasHandleDeleteResp db (deleteMatricula db uid mid)

-- ===== MatriculasManager.fetchAlunos =====

/-- The projection select('id, nome_completo, matricula') of fetchAlunos. -/
structure AlunoOption where
  id : String
  nome_completo : String
  matricula : String
deriving DecidableEq, Repr

/-- Ordered insertion for order('nome_completo'). -/
def insertByKey {α : Type} (key : α → String) (x : α) : List α → List α
  | [] => [x]
  | y :: ys =>
    match compare (key x) (key y) with
    | Ordering.gt => y :: insertByKey key x ys
    | _ => x :: y :: ys

/-- Insertion sort standing in for the store's ORDER BY. -/
def sortByKey {α : Type} (key : α → String) : List α → List α
  | [] => []
  | x :: xs => insertByKey key x (sortByKey key xs)

/-- MatriculasManager.fetchAlunos: select id, nome_completo, matricula from
alunos where status = 'ATIVO' order by nome_completo.  The result is the
select list offered by the new-enrollment form. -/
def fetchAlunosAtivos (db : DB) : List AlunoOption :=
  (sortByKey (fun a => a.nome_completo)
      (db.alunos.filter (fun a => a.status == StatusMatricula.ATIVO))).map
    (fun a => ⟨a.id, a.nome_completo, a.matricula⟩)

/-- Modelled from the spec: shape validity of an enrollment form input per
the claimed taxonomy "field presence, format patterns, numeric bounds" — a
student and a course are selected (non-empty ids), the entry year lies in
the form's numeric bounds 2000..2100 and the term is 1 or 2.  The repository
itself contains no client-side validation for this form. -/
def enrollmentShapeOk (f : MatriculaForm) : Bool :=
  f.aluno_id != "" && f.curso_id != "" &&
  (2000 ≤ f.ano_ingresso && f.ano_ingresso ≤ 2100) &&
  (f.semestre_ingresso == 1 || f.semestre_ingresso == 2)

-- ===== Reachability through the application =====

/-- Database states reachable through the application: the empty state,
out-of-band role provisioning (no client module manages user_roles — role
rows are seeded by the platform owner, who is not subject to RLS), signup
(auth-subject creation with its provisioning trigger), and the operations of
the three entity modules. -/
inductive ModuleReachable : DB → Prop
  | empty : ModuleReachable emptyDB
  | adminSeed (db : DB) (ur : UserRole) : ModuleReachable db →
      ModuleReachable { db with user_roles := ur :: db.user_roles }
  | signup (db : DB) (nu : AuthUser) (now : Nat) : ModuleReachable db →
      ModuleReachable (applyResult db (createAuthUser db nu now))
  | cursoCreate (db : DB) (uid : Option String) (f : CursoForm) (newId : String)
      (now : Nat) : ModuleReachable db →
      ModuleReachable (cursosHandleSubmitCreate db uid f newId now).db
  | cursoUpdate (db : DB) (uid : Option String) (editId : String) (f : CursoForm)
      (now : Nat) : ModuleReachable db →
      ModuleReachable (cursosHandleSubmitUpdate db uid editId f now).db
  | cursoDelete (db : DB) (uid : Option String) (cid : String) : ModuleReachable db →
      ModuleReachable (cursosHandleDelete db uid cid).db
  | alunoCreate (db : DB) (uid : Option String) (f : AlunoForm) (newId : String)
      (now : Nat) : ModuleReachable db →
      ModuleReachable (alunosHandleSubmitCreate db uid f newId now).db
  | alunoUpdate (db : DB) (uid : Option String) (editId : String) (f : AlunoForm)
      (now : Nat) : ModuleReachable db →
      ModuleReachable (alunosHandleSubmitUpdate db uid editId f now).db
  | alunoDeactivate (db : DB) (uid : Option String) (aid : String) (now : Nat) :
      ModuleReachable db → ModuleReachable (alunosHandleDelete db uid aid now).db
  | matriculaCreate (db : DB) (uid : Option String) (f : MatriculaForm)
      (newId : String) (now : Nat) : ModuleReachable db →
      ModuleReachable (matriculasHandleSubmit db uid f newId now).db
  | matriculaDelete (db : DB) (uid : Option String) (mid : String) :
      ModuleReachable db → ModuleReachable (matriculasHandleDelete db uid mid).db

-- ===== Helper lemmas =====

theorem map_id_of_mem {α : Type} (l : List α) (f : α → α)
    (h : ∀ x ∈ l, f x = x) : l.map f = l := by
  induction l with
  | nil => rfl
  | cons y ys ih =>
    simp only [List.map_cons]
    rw [h y (List.mem_cons_self y ys), ih (fun x hx => h x (List.mem_cons_of_mem y hx))]

theorem filter_all_true {α : Type} (l : List α) (p : α → Bool)
    (h : ∀ x ∈ l, p x = true) : l.filter p = l := by
  induction l with
  | nil => rfl
  | cons y ys ih =>
    rw [List.filter_cons, if_pos (h y (List.mem_cons_self y ys)),
      ih (fun x hx => h x (List.mem_cons_of_mem y hx))]

theorem insertCurso_ok (db : DB) (uid : Option String) (c : Curso) (db2 : DB)
    (h : insertCurso db uid c = .ok db2) : db2 = { db with cursos := c :: db.cursos } := by
  unfold insertCurso at h
  split at h
  · exact absurd h (by simp)
  split at h
  · exact absurd h (by simp)
  split at h
  · exact absurd h (by simp)
  split at h
  · exact absurd h (by simp)
  exact (Except.ok.injEq _ _ ▸ h).symm

theorem insertAluno_ok (db : DB) (uid : Option String) (a : Aluno) (db2 : DB)
    (h : insertAluno db uid a = .ok db2) : db2 = { db with alunos := a :: db.alunos } := by
  unfold insertAluno at h
  split at h
  · exact absurd h (by simp)
  split at h
  · exact absurd h (by simp)
  split at h
  · exact absurd h (by simp)
  split at h
  · exact absurd h (by simp)
  split at h
  · exact absurd h (by simp)
  exact (Except.ok.injEq _ _ ▸ h).symm

theorem insertMatricula_ok (db : DB) (uid : Option String) (m : Matricula) (db2 : DB)
    (h : insertMatricula db uid m = .ok db2) :
    db2 = { db with matriculas := m :: db.matriculas } := by
  unfold insertMatricula at h
  split at h
  · exact absurd h (by simp)
  split at h
  · exact absurd h (by simp)
  split at h
  · exact absurd h (by simp)
  split at h
  · exact absurd h (by simp)
  split at h
  · exact absurd h (by simp)
  split at h
  · exact absurd h (by simp)
  exact (Except.ok.injEq _ _ ▸ h).symm

theorem updateCurso_ok (db : DB) (uid : Option String) (cid : String)
    (assign : Curso → Curso) (now : Nat) (db2 : DB)
    (h : updateCurso db uid cid assign now = .ok db2) :
    db2 = { db with cursos := db.cursos.map (fun c =>
      if cursoUpdTarget db uid cid c then update_updated_at_curso (assign c) now else c) } := by
  unfold updateCurso at h
  simp only [] at h
  split at h
  · exact absurd h (by simp)
  exact (Except.ok.injEq _ _ ▸ h).symm

theorem updateAluno_ok (db : DB) (uid : Option String) (aid : String)
    (assign : Aluno → Aluno) (now : Nat) (db2 : DB)
    (h : updateAluno db uid aid assign now = .ok db2) :
    db2 = { db with alunos := db.alunos.map (fun a =>
      if alunoUpdTarget db uid aid a then update_updated_at_aluno (assign a) now else a) } := by
  unfold updateAluno at h
  simp only [] at h
  split at h
  · exact absurd h (by simp)
  exact (Except.ok.injEq _ _ ▸ h).symm

theorem updateProfile_ok (db : DB) (uid : Option String) (pid : String)
    (assign : Profile → Profile) (now : Nat) (db2 : DB)
    (h : updateProfile db uid pid assign now = .ok db2) :
    db2 = { db with profiles := db.profiles.map (fun p =>
      if profileUpdTarget db uid pid p then update_updated_at_profile (assign p) now else p) } := by
  unfold updateProfile at h
  simp only [] at h
  split at h
  · exact absurd h (by simp)
  exact (Except.ok.injEq _ _ ▸ h).symm

theorem handle_new_user_ok (db : DB) (nu : AuthUser) (now : Nat) (db2 : DB)
    (h : handle_new_user db nu now = .ok db2) :
    db2 = { db with profiles := newProfileOf nu now :: db.profiles } := by
  unfold handle_new_user at h
  simp only [] at h
  split at h
  · exact absurd h (by simp)
  split at h
  · exact absurd h (by simp)
  exact (Except.ok.injEq _ _ ▸ h).symm

theorem createAuthUser_ok (db : DB) (nu : AuthUser) (now : Nat) (db2 : DB)
    (h : createAuthUser db nu now = .ok db2) :
    db2 = { db with auth_users := nu :: db.auth_users,
                    profiles := newProfileOf nu now :: db.profiles } := by
  unfold createAuthUser at h
  split at h
  · exact absurd h (by simp)
  exact handle_new_user_ok _ nu now db2 h

theorem allowed_cursos_nonselect (db : DB) (uid : Option String) (c : Cmd) (row : Curso)
    (hc : forSelect c = false) :
    allowed cursosPolicies db uid c row = authHasRole db uid AppRole.admin := by
  simp [allowed, cursosPolicies, hc, forAllCmds]

theorem allowed_alunos_nonselect (db : DB) (uid : Option String) (c : Cmd) (row : Aluno)
    (hc : forSelect c = false) :
    allowed alunosPolicies db uid c row = authHasRole db uid AppRole.admin := by
  simp [allowed, alunosPolicies, hc, forAllCmds]

theorem allowed_matriculas_nonselect (db : DB) (uid : Option String) (c : Cmd) (row : Matricula)
    (hc : forSelect c = false) :
    allowed matriculasPolicies db uid c row = authHasRole db uid AppRole.admin := by
  simp [allowed, matriculasPolicies, hc, forAllCmds]

theorem allowed_user_roles_nonselect (db : DB) (uid : Option String) (c : Cmd) (row : UserRole)
    (hc : forSelect c = false) :
    allowed userRolesPolicies db uid c row = authHasRole db uid AppRole.admin := by
  simp [allowed, userRolesPolicies, hc, forAllCmds]

/-- C4: for every user and profile row, the policy layer permits reading the
row iff it is the user's own profile or the user holds the admin role,
permits updating the row iff it is the user's own profile (so an admin
cannot update another user's profile), and never permits a client-initiated
insert or delete of a profile row. -/
theorem C4_profiles_policy_layer (db : DB) (uid : Option String) (row : Profile) :
    allowed profilesPolicies db uid Cmd.select row
      = (uid == some row.id || authHasRole db uid AppRole.admin) ∧
    allowed profilesPolicies db uid Cmd.update row = (uid == some row.id) ∧
    allowed profilesPolicies db uid Cmd.insert row = false ∧
    allowed profilesPolicies db uid Cmd.delete row = false := by
  refine ⟨?_, ?_, ?_, ?_⟩ <;>
    simp [allowed, profilesPolicies, forSelect, forUpdate]

/-- C1: a user who does not hold the admin role can mutate nothing: every
insert into cursos, alunos, matriculas or user_roles is rejected by the
policy layer, and every update or delete statement affects zero rows (the
statement completes with the table state unchanged), whatever row values or
SET lists the client supplies. -/
theorem C1_non_admin_mutations_denied
    (db : DB) (uid : Option String)
    (h : authHasRole db uid AppRole.admin = false)
    (c : Curso) (a : Aluno) (m : Matricula) (ur : UserRole)
    (cid aid mid rid : String) (now : Nat)
    (fc : Curso → Curso) (fa : Aluno → Aluno) (fm : Matricula → Matricula)
    (fr : UserRole → UserRole) :
    insertCurso db uid c = .error .policyDenied ∧
    insertAluno db uid a = .error .policyDenied ∧
    insertMatricula db uid m = .error .policyDenied ∧
    insertUserRole db uid ur = .error .policyDenied ∧
    updateCurso db uid cid fc now = .ok db ∧
    updateAluno db uid aid fa now = .ok db ∧
    updateMatricula db uid mid fm = .ok db ∧
    updateUserRole db uid rid fr = .ok db ∧
    deleteCurso db uid cid = .ok db ∧
    deleteAluno db uid aid = .ok db ∧
    deleteMatricula db uid mid = .ok db ∧
    deleteUserRole db uid rid = .ok db := by
  have hC : ∀ (cmd : Cmd) (x : Curso), forSelect cmd = false →
      allowed cursosPolicies db uid cmd x = false := fun cmd x hx => by
    rw [allowed_cursos_nonselect db uid cmd x hx]; exact h
  have hA : ∀ (cmd : Cmd) (x : Aluno), forSelect cmd = false →
      allowed alunosPolicies db uid cmd x = false := fun cmd x hx => by
    rw [allowed_alunos_nonselect db uid cmd x hx]; exact h
  have hM : ∀ (cmd : Cmd) (x : Matricula), forSelect cmd = false →
      allowed matriculasPolicies db uid cmd x = false := fun cmd x hx => by
    rw [allowed_matriculas_nonselect db uid cmd x hx]; exact h
  have hR : ∀ (cmd : Cmd) (x : UserRole), forSelect cmd = false →
      allowed userRolesPolicies db uid cmd x = false := fun cmd x hx => by
    rw [allowed_user_roles_nonselect db uid cmd x hx]; exact h
  refine ⟨?_, ?_, ?_, ?_, ?_, ?_, ?_, ?_, ?_, ?_, ?_, ?_⟩
  · simp [insertCurso, hC Cmd.insert c rfl]
  · simp [insertAluno, hA Cmd.insert a rfl]
  · simp [insertMatricula, hM Cmd.insert m rfl]
  · simp [insertUserRole, hR Cmd.insert ur rfl]
  · unfold updateCurso
    simp only [cursoUpdTarget]
    simp [fun x => hC Cmd.update x rfl]
  · unfold updateAluno
    simp only [alunoUpdTarget]
    simp [fun x => hA Cmd.update x rfl]
  · unfold updateMatricula
    simp only [matriculaUpdTarget]
    simp [fun x => hM Cmd.update x rfl]
  · unfold updateUserRole
    simp only [userRoleUpdTarget]
    simp [fun x => hR Cmd.update x rfl]
  · unfold deleteCurso
    simp [fun x => hC Cmd.delete x rfl]
  · unfold deleteAluno
    simp [fun x => hA Cmd.delete x rfl]
  · unfold deleteMatricula
    simp [fun x => hM Cmd.delete x rfl]
  · unfold deleteUserRole
    simp [fun x => hR Cmd.delete x rfl]

/-- A concrete populated database whose caller 'eve' holds only the leitor
role. -/
def dbC1 : DB :=
  { auth_users := [⟨"eve", "eve at example", none⟩],
    profiles := [⟨"eve", "Eve", "eve at example", 0, 0⟩],
    user_roles := [⟨"r1", "eve", AppRole.leitor, 0⟩],
    cursos := [⟨"c1", "Engenharia de Software", "ENG-SW", 8, 0, 0⟩],
    alunos := [⟨"a1", "Ana Silva", "2025-1-0001", "111.111.111-11",
                "ana at example", "2000-01-01", none, StatusMatricula.ATIVO, 0, 0⟩],
    matriculas := [⟨"m1", "a1", "c1", 2025, 1, 0⟩] }

/-- Witness for C1 at a concrete non-admin caller. -/
theorem C1_witness :
    authHasRole dbC1 (some "eve") AppRole.admin = false ∧
    insertCurso dbC1 (some "eve") ⟨"c2", "Direito", "DIR", 10, 0, 0⟩ = .error .policyDenied ∧
    updateCurso dbC1 (some "eve") "c1" (fun c => { c with duracao_semestres := 99 }) 7 = .ok dbC1 ∧
    deleteCurso dbC1 (some "eve") "c1" = .ok dbC1 ∧
    deleteMatricula dbC1 (some "eve") "m1" = .ok dbC1 := by
  have h := C1_non_admin_mutations_denied dbC1 (some "eve") (by decide)
    ⟨"c2", "Direito", "DIR", 10, 0, 0⟩
    ⟨"a2", "Bia", "2025-1-0002", "222.222.222-22", "bia at example", "2001-01-01",
      none, StatusMatricula.ATIVO, 0, 0⟩
    ⟨"m2", "a1", "c1", 2025, 2, 0⟩
    ⟨"r2", "eve", AppRole.admin, 0⟩
    "c1" "a1" "m1" "r1" 7
    (fun c => { c with duracao_semestres := 99 }) (fun a => a) (fun m => m) (fun r => r)
  exact ⟨by decide, h.1, h.2.2.2.2.1, h.2.2.2.2.2.2.2.2.1, h.2.2.2.2.2.2.2.2.2.2.1⟩

/-- C5: when the enrollments table already holds an enrollment for a
(student, course) pair, an authorized insert of a second enrollment for the
same pair fails with the uniqueness violation of UNIQUE(aluno_id, curso_id)
and leaves the database unchanged, whatever entry year and whichever of the
two terms the client supplies. -/
theorem C5_duplicate_enrollment_rejected
    (db : DB) (uid : Option String) (m mNew : Matricula)
    (hmem : m ∈ db.matriculas)
    (ha : mNew.aluno_id = m.aluno_id) (hc : mNew.curso_id = m.curso_id)
    (hadmin : authHasRole db uid AppRole.admin = true)
    (hsem : mNew.semestre_ingresso = 1 ∨ mNew.semestre_ingresso = 2) :
    insertMatricula db uid mNew = .error (.uniqueViolation
      "duplicate key value violates unique constraint matriculas_aluno_id_curso_id_key") ∧
    applyResult db (insertMatricula db uid mNew) = db := by
  have hallow : allowed matriculasPolicies db uid Cmd.insert mNew = true := by
    rw [allowed_matriculas_nonselect db uid Cmd.insert mNew rfl]; exact hadmin
  have hsem2 : (mNew.semestre_ingresso == 1 || mNew.semestre_ingresso == 2) = true := by
    rcases hsem with h1 | h2
    · simp [h1]
    · simp [h2]
  have hdup : db.matriculas.any
      (fun x => x.aluno_id == mNew.aluno_id && x.curso_id == mNew.curso_id) = true := by
    refine List.any_eq_true.mpr ⟨m, hmem, ?_⟩
    simp [ha, hc]
  have heq : insertMatricula db uid mNew = .error (.uniqueViolation
      "duplicate key value violates unique constraint matriculas_aluno_id_curso_id_key") := by
    unfold insertMatricula
    rw [hallow, hsem2, hdup]
    simp
  exact ⟨heq, by rw [heq]; rfl⟩

/-- A concrete database with an admin caller and one enrollment of a1 in c1. -/
def dbC5 : DB :=
  { auth_users := [⟨"adm", "adm at example", none⟩],
    profiles := [⟨"adm", "Admin", "adm at example", 0, 0⟩],
    user_roles := [⟨"r1", "adm", AppRole.admin, 0⟩],
    cursos := [⟨"c1", "Engenharia de Software", "ENG-SW", 8, 0, 0⟩],
    alunos := [⟨"a1", "Ana Silva", "2025-1-0001", "111.111.111-11",
                "ana at example", "2000-01-01", none, StatusMatricula.ATIVO, 0, 0⟩],
    matriculas := [⟨"m1", "a1", "c1", 2025, 1, 0⟩] }

/-- Witness for C5: the duplicate enrollment differs in year and term and is
still rejected with the uniqueness violation. -/
theorem C5_witness :
    insertMatricula dbC5 (some "adm") ⟨"m2", "a1", "c1", 2026, 2, 9⟩ =
      .error (.uniqueViolation
        "duplicate key value violates unique constraint matriculas_aluno_id_curso_id_key") ∧
    applyResult dbC5 (insertMatricula dbC5 (some "adm") ⟨"m2", "a1", "c1", 2026, 2, 9⟩) = dbC5 :=
  C5_duplicate_enrollment_rejected dbC5 (some "adm") ⟨"m1", "a1", "c1", 2025, 1, 0⟩
    ⟨"m2", "a1", "c1", 2026, 2, 9⟩ (by decide) rfl rfl (by decide) (Or.inr rfl)

/-- C3: a successful auth-subject creation adds exactly one profile row,
whose id and email equal the subject's and whose display name is the
supplied nome_completo metadata or the placeholder 'Usuário'; before the
creation no profile with that id existed, afterwards exactly one does.  And
when the trigger's profile insert fails, subject creation as a whole fails
(nothing of either table survives, the trigger running in the same
transaction). -/
theorem C3_signup_provisions_profile
    (db : DB) (nu : AuthUser) (now : Nat) (db2 : DB)
    (h : createAuthUser db nu now = .ok db2) :
    db2.profiles = newProfileOf nu now :: db.profiles ∧
    (newProfileOf nu now).id = nu.id ∧
    (newProfileOf nu now).email = nu.email ∧
    (newProfileOf nu now).nome_completo = nu.raw_meta_nome_completo.getD "Usuário" ∧
    db2.auth_users = nu :: db.auth_users ∧
    (db2.profiles.filter (fun p => p.id == nu.id)).length = 1 ∧
    (db.profiles.filter (fun p => p.id == nu.id)).length = 0 ∧
    (∀ (dbX : DB) (nuX : AuthUser) (nowX : Nat) (e : DbError),
      dbX.auth_users.any (fun u => u.id == nuX.id) = false →
      handle_new_user { dbX with auth_users := nuX :: dbX.auth_users } nuX nowX = .error e →
      createAuthUser dbX nuX nowX = .error e) := by
  have hpk : db.profiles.any (fun q => q.id == (newProfileOf nu now).id) = false := by
    unfold createAuthUser at h
    split at h
    · exact absurd h (by simp)
    unfold handle_new_user at h
    simp only [] at h
    split at h
    next hq => exact absurd h (by simp)
    next hq => simpa using hq
  have hdb2 := createAuthUser_ok db nu now db2 h
  subst hdb2
  have hfilter0 : db.profiles.filter (fun p => p.id == nu.id) = [] := by
    rw [List.filter_eq_nil_iff]
    intro p hp hcontra
    have : db.profiles.any (fun q => q.id == (newProfileOf nu now).id) = true :=
      List.any_eq_true.mpr ⟨p, hp, by simpa [newProfileOf] using hcontra⟩
    rw [this] at hpk
    exact Bool.true_eq_false.mp hpk
  refine ⟨rfl, rfl, rfl, rfl, rfl, ?_, by rw [hfilter0]; rfl, ?_⟩
  · show ((newProfileOf nu now :: db.profiles).filter (fun p => p.id == nu.id)).length = 1
    rw [List.filter_cons, if_pos (by simp [newProfileOf]), hfilter0]
    rfl
  · intro dbX nuX nowX e hno hfail
    unfold createAuthUser
    rw [hno]
    simpa using hfail

/-- Witness for C3: a signup with nome_completo metadata present. -/
theorem C3_witness :
    ((applyResult emptyDB (createAuthUser emptyDB ⟨"u1", "ana at example", some "Ana Silva"⟩ 3)).profiles
        = [⟨"u1", "Ana Silva", "ana at example", 3, 3⟩]) ∧
    ((applyResult emptyDB (createAuthUser emptyDB ⟨"u1", "ana at example", some "Ana Silva"⟩ 3)).profiles.filter
        (fun p => p.id == "u1")).length = 1 := by
  have h := C3_signup_provisions_profile emptyDB ⟨"u1", "ana at example", some "Ana Silva"⟩ 3
    (applyResult emptyDB (createAuthUser emptyDB ⟨"u1", "ana at example", some "Ana Silva"⟩ 3))
    (by rfl)
  exact ⟨by rw [h.1]; rfl, h.2.2.2.2.2.1⟩

/-- C8: on every successful update of a profiles, cursos or alunos row, the
BEFORE UPDATE trigger writes the current server time into updated_at,
overriding whatever value the SET list supplied for that column; with a
later server clock a later update therefore stores a strictly larger
updated_at. -/
theorem C8_updated_at_server_assigned
    (db : DB) (uid : Option String) (now now2 : Nat)
    (pid cid aid : String)
    (fP : Profile → Profile) (fC : Curso → Curso) (fA : Aluno → Aluno)
    (dbP dbC dbA : DB) (p : Profile) (c : Curso) (a : Aluno)
    (hP : updateProfile db uid pid fP now = .ok dbP)
    (hC : updateCurso db uid cid fC now = .ok dbC)
    (hA : updateAluno db uid aid fA now = .ok dbA)
    (hpm : p ∈ db.profiles) (hpt : profileUpdTarget db uid pid p = true)
    (hcm : c ∈ db.cursos) (hct : cursoUpdTarget db uid cid c = true)
    (ham : a ∈ db.alunos) (hat : alunoUpdTarget db uid aid a = true)
    (hlt : now < now2) :
    update_updated_at_profile (fP p) now ∈ dbP.profiles ∧
    (update_updated_at_profile (fP p) now).updated_at = now ∧
    update_updated_at_curso (fC c) now ∈ dbC.cursos ∧
    (update_updated_at_curso (fC c) now).updated_at = now ∧
    update_updated_at_aluno (fA a) now ∈ dbA.alunos ∧
    (update_updated_at_aluno (fA a) now).updated_at = now ∧
    (update_updated_at_curso (fC (update_updated_at_curso (fC c) now)) now2).updated_at
      > (update_updated_at_curso (fC c) now).updated_at := by
  have hdbP := updateProfile_ok db uid pid fP now dbP hP
  have hdbC := updateCurso_ok db uid cid fC now dbC hC
  have hdbA := updateAluno_ok db uid aid fA now dbA hA
  subst hdbP; subst hdbC; subst hdbA
  refine ⟨?_, rfl, ?_, rfl, ?_, rfl, ?_⟩
  · exact List.mem_map.mpr ⟨p, hpm, by rw [if_pos hpt]⟩
  · exact List.mem_map.mpr ⟨c, hcm, by rw [if_pos hct]⟩
  · exact List.mem_map.mpr ⟨a, ham, by rw [if_pos hat]⟩
  · simpa [update_updated_at_curso] using hlt

/-- A concrete database whose caller 'u1' is an admin with a profile. -/
def dbC8 : DB :=
  { auth_users := [⟨"u1", "adm at example", none⟩],
    profiles := [⟨"u1", "Admin", "adm at example", 0, 0⟩],
    user_roles := [⟨"r1", "u1", AppRole.admin, 0⟩],
    cursos := [⟨"c1", "Engenharia de Software", "ENG-SW", 8, 0, 0⟩],
    alunos := [⟨"a1", "Ana Silva", "2025-1-0001", "111.111.111-11",
                "ana at example", "2000-01-01", none, StatusMatricula.ATIVO, 0, 0⟩],
    matriculas := [] }

/-- Witness for C8: the SET list even tries to write updated_at := 999 and
the stored value is still the server time 5. -/
theorem C8_witness :
    update_updated_at_curso
        ((fun c => { c with updated_at := 999 })
          (⟨"c1", "Engenharia de Software", "ENG-SW", 8, 0, 0⟩ : Curso)) 5 ∈
      (applyResult dbC8 (updateCurso dbC8 (some "u1") "c1"
        (fun c => { c with updated_at := 999 }) 5)).cursos ∧
    (update_updated_at_curso
        ((fun c => { c with updated_at := 999 })
          (⟨"c1", "Engenharia de Software", "ENG-SW", 8, 0, 0⟩ : Curso)) 5).updated_at = 5 := by
  have h := C8_updated_at_server_assigned dbC8 (some "u1") 5 6 "u1" "c1" "a1"
    (fun p => p) (fun c => { c with updated_at := 999 }) (fun a => a)
    (applyResult dbC8 (updateProfile dbC8 (some "u1") "u1" (fun p => p) 5))
    (applyResult dbC8 (updateCurso dbC8 (some "u1") "c1"
      (fun c => { c with updated_at := 999 }) 5))
    (applyResult dbC8 (updateAluno dbC8 (some "u1") "a1" (fun a => a) 5))
    ⟨"u1", "Admin", "adm at example", 0, 0⟩
    ⟨"c1", "Engenharia de Software", "ENG-SW", 8, 0, 0⟩
    ⟨"a1", "Ana Silva", "2025-1-0001", "111.111.111-11",
      "ana at example", "2000-01-01", none, StatusMatricula.ATIVO, 0, 0⟩
    (by rfl) (by rfl) (by rfl)
    (by decide) (by decide) (by decide) (by decide) (by decide) (by decide) (by decide)
  exact ⟨h.2.2.1, h.2.2.2.1⟩

/-- A concrete database with an admin caller, one course and one enrollment
referencing it. -/
def dbC2 : DB :=
  { auth_users := [⟨"adm", "adm at example", none⟩],
    profiles := [⟨"adm", "Admin", "adm at example", 0, 0⟩],
    user_roles := [⟨"r1", "adm", AppRole.admin, 0⟩],
    cursos := [⟨"c1", "Engenharia de Software", "ENG-SW", 8, 0, 0⟩],
    alunos := [⟨"a1", "Ana Silva", "2025-1-0001", "111.111.111-11",
                "ana at example", "2000-01-01", none, StatusMatricula.ATIVO, 0, 0⟩],
    matriculas := [⟨"m1", "a1", "c1", 2025, 1, 0⟩] }

/-- Counterexample to C2: the course c1 has an enrollment, yet the delete
does not fail with a foreign-key violation — matriculas.curso_id is declared
ON DELETE CASCADE, so the delete succeeds, removes the course and cascades
the removal of its enrollment. -/
theorem C2_counterexample :
    dbC2.matriculas.any (fun m => m.curso_id == "c1") = true ∧
    deleteCurso dbC2 (some "adm") "c1" = .ok { dbC2 with cursos := [], matriculas := [] } := by
  constructor
  · decide
  · rfl

/-- C2 amended: an admin's delete of an existing course always succeeds;
thanks to ON DELETE CASCADE it removes the course together with every
enrollment referencing it, and it touches no student row. -/
theorem C2_amended_course_delete_cascades
    (db : DB) (uid : Option String) (cid : String)
    (hadmin : authHasRole db uid AppRole.admin = true)
    (hex : db.cursos.any (fun c => c.id == cid) = true) :
    deleteCurso db uid cid = .ok (applyResult db (deleteCurso db uid cid)) ∧
    (applyResult db (deleteCurso db uid cid)).cursos.all (fun c => !(c.id == cid)) = true ∧
    (applyResult db (deleteCurso db uid cid)).matriculas.all
      (fun m => !(m.curso_id == cid)) = true ∧
    (applyResult db (deleteCurso db uid cid)).alunos = db.alunos := by
  have hallow : ∀ x : Curso, allowed cursosPolicies db uid Cmd.delete x = true := fun x => by
    rw [allowed_cursos_nonselect db uid Cmd.delete x rfl]; exact hadmin
  obtain ⟨c0, hc0mem, hc0⟩ := List.any_eq_true.mp hex
  have hc0id : c0.id = cid := by simpa using hc0
  have hcidmem : cid ∈ (db.cursos.filter
      (fun c => c.id == cid && allowed cursosPolicies db uid Cmd.delete c)).map
        (fun c => c.id) := by
    refine List.mem_map.mpr ⟨c0, ?_, hc0id⟩
    refine List.mem_filter.mpr ⟨hc0mem, ?_⟩
    simp [hc0, hallow c0]
  have hcidTrue : ((db.cursos.filter
      (fun c => c.id == cid && allowed cursosPolicies db uid Cmd.delete c)).map
        (fun c => c.id)).contains cid = true :=
    List.elem_eq_true_of_mem hcidmem
  refine ⟨rfl, ?_, ?_, rfl⟩
  · simp only [deleteCurso, applyResult]
    rw [List.all_eq_true]
    intro c hcmem
    have h2 := (List.mem_filter.mp hcmem).2
    by_contra hne
    have hceq : c.id = cid := by simpa using hne
    rw [hceq, hcidTrue] at h2
    simp at h2
  · simp only [deleteCurso, applyResult]
    rw [List.all_eq_true]
    intro m hmmem
    have h2 := (List.mem_filter.mp hmmem).2
    by_contra hne
    have hmeq : m.curso_id = cid := by simpa using hne
    rw [hmeq, hcidTrue] at h2
    simp at h2

/-- Witness for the amended C2. -/
theorem C2_amended_witness :
    (applyResult dbC2 (deleteCurso dbC2 (some "adm") "c1")).cursos.all
      (fun c => !(c.id == "c1")) = true ∧
    (applyResult dbC2 (deleteCurso dbC2 (some "adm") "c1")).matriculas.all
      (fun m => !(m.curso_id == "c1")) = true :=
  have h := C2_amended_course_delete_cascades dbC2 (some "adm") "c1" (by decide) (by decide)
  ⟨h.2.1, h.2.2.1⟩

/-- Counterexample to C6: the enrollments module performs no client-side
shape validation — even a form with no student and no course selected, an
out-of-bounds year and an invalid term is sent to the store as a request. -/
theorem C6_counterexample :
    enrollmentShapeOk ⟨"", "", 1999, 7⟩ = false ∧
    (matriculasHandleSubmit emptyDB (some "adm") ⟨"", "", 1999, 7⟩ "m1" 0).requestSent = true := by
  constructor
  · decide
  · rfl

/-- C6 amended: the students and courses modules parse their form with a zod
schema before any request — a failing parse sends nothing and shows the
first violation — while the enrollments module sends its insert
unconditionally, with no client-side validation at all. -/
theorem C6_amended_validation_coverage
    (db : DB) (uid : Option String) (newId editId : String) (now : Nat)
    (fc : CursoForm) (fa : AlunoForm) (fm : MatriculaForm) (mc ma : String)
    (hfc : cursoSchemaCheck fc = some mc)
    (hfa : alunoSchemaCheck fa = some ma) :
    cursosHandleSubmitCreate db uid fc newId now = ⟨false, .validationToast mc, db⟩ ∧
    cursosHandleSubmitUpdate db uid editId fc now = ⟨false, .validationToast mc, db⟩ ∧
    alunosHandleSubmitCreate db uid fa newId now = ⟨false, .validationToast ma, db⟩ ∧
    alunosHandleSubmitUpdate db uid editId fa now = ⟨false, .validationToast ma, db⟩ ∧
    (matriculasHandleSubmit db uid fm newId now).requestSent = true := by
  refine ⟨?_, ?_, ?_, ?_, ?_⟩
  · simp [cursosHandleSubmitCreate, hfc]
  · simp [cursosHandleSubmitUpdate, hfc]
  · simp [alunosHandleSubmitCreate, hfa]
  · simp [alunosHandleSubmitUpdate, hfa]
  · unfold matriculasHandleSubmit
    cases hins : insertMatricula db uid (matriculaOfForm fm newId now) with
    | ok db2 => rfl
    | error e => rfl

/-- Witness for the amended C6: a one-letter course name and a malformed
matricula are rejected with the schema's first message and no request. -/
theorem C6_amended_witness :
    cursosHandleSubmitCreate emptyDB (some "adm") ⟨"ab", "ENG", 8⟩ "n1" 0
      = ⟨false, .validationToast "Nome deve ter no mínimo 3 caracteres", emptyDB⟩ ∧
    alunosHandleSubmitCreate emptyDB (some "adm")
        ⟨"Ana Silva", "25-1-1", "111.111.111-11", "ana@x.br", "2000-01-01", "",
          StatusMatricula.ATIVO⟩ "n1" 0
      = ⟨false, .validationToast "Formato: AAAA-S-NNNN (ex: 2025-1-1234)", emptyDB⟩ ∧
    (matriculasHandleSubmit emptyDB (some "adm") ⟨"", "", 1999, 7⟩ "n1" 0).requestSent = true :=
  have h := C6_amended_validation_coverage emptyDB (some "adm") "n1" "e1" 0
    ⟨"ab", "ENG", 8⟩
    ⟨"Ana Silva", "25-1-1", "111.111.111-11", "ana@x.br", "2000-01-01", "",
      StatusMatricula.ATIVO⟩
    ⟨"", "", 1999, 7⟩
    "Nome deve ter no mínimo 3 caracteres" "Formato: AAAA-S-NNNN (ex: 2025-1-1234)"
    (by decide) (by decide)
  ⟨h.1, h.2.2.1, h.2.2.2.2⟩

/-- Counterexample to C7: a store rejection returned to the student module's
soft delete — here a uniqueness violation — produces no user-facing message
at all (the handler has no error branch). -/
theorem C7_counterexample :
    (alunosHandleDeleteResp emptyDB (.error (.uniqueViolation
        "duplicate key value violates unique constraint alunos_email_key"))).outcome
      = ClientOutcome.silent := by
  rfl

/-- C7 amended: store rejections on the create and update paths of all three
modules are surfaced as destructive toasts — the enrollments module replaces
a message containing 'duplicate' by a friendlier hint and shows any other
rejection message verbatim — and a rejected course delete is surfaced with a
fixed hint; but rejections returned to the student soft delete and to the
enrollment delete are silently dropped. -/
theorem C7_amended_rejection_surfacing
    (db : DB) (uid : Option String) (newId editIdC editIdA : String) (now : Nat)
    (fc fcu : CursoForm) (fa fau : AlunoForm) (fm fm2 : MatriculaForm)
    (e1 e1u e2 e2u e3 e3n e4 : DbError)
    (hv1 : cursoSchemaCheck fc = none)
    (hins1 : insertCurso db uid (cursoOfForm fc newId now) = .error e1)
    (hv1u : cursoSchemaCheck fcu = none)
    (hupd1 : updateCurso db uid editIdC (cursoAssignOfForm fcu) now = .error e1u)
    (hv2 : alunoSchemaCheck fa = none)
    (hins2 : insertAluno db uid (alunoOfForm fa newId now) = .error e2)
    (hv2u : alunoSchemaCheck fau = none)
    (hupd2 : updateAluno db uid editIdA (alunoAssignOfForm fau) now = .error e2u)
    (hins3 : insertMatricula db uid (matriculaOfForm fm newId now) = .error e3)
    (hdup3 : strContains e3.message "duplicate" = true)
    (hins3n : insertMatricula db uid (matriculaOfForm fm2 newId now) = .error e3n)
    (hdup3n : strContains e3n.message "duplicate" = false) :
    cursosHandleSubmitCreate db uid fc newId now
      = ⟨true, .errorToast "Erro ao salvar curso" e1.message, db⟩ ∧
    cursosHandleSubmitUpdate db uid editIdC fcu now
      = ⟨true, .errorToast "Erro ao salvar curso" e1u.message, db⟩ ∧
    alunosHandleSubmitCreate db uid fa newId now
      = ⟨true, .errorToast "Erro ao salvar aluno" e2.message, db⟩ ∧
    alunosHandleSubmitUpdate db uid editIdA fau now
      = ⟨true, .errorToast "Erro ao salvar aluno" e2u.message, db⟩ ∧
    matriculasHandleSubmit db uid fm newId now
      = ⟨true, .errorToast "Erro ao matricular" "Aluno já está matriculado neste curso", db⟩ ∧
    matriculasHandleSubmit db uid fm2 newId now
      = ⟨true, .errorToast "Erro ao matricular" e3n.message, db⟩ ∧
    (cursosHandleDeleteResp db (.error e4)).outcome
      = .errorToast "Erro ao excluir curso" "Pode haver alunos matriculados neste curso" ∧
    (alunosHandleDeleteResp db (.error e4)).outcome = ClientOutcome.silent ∧
    (matriculasHandleDeleteResp db (.error e4)).outcome = ClientOutcome.silent := by
  refine ⟨?_, ?_, ?_, ?_, ?_, ?_, rfl, rfl, rfl⟩
  · simp [cursosHandleSubmitCreate, hv1, hins1]
  · simp [cursosHandleSubmitUpdate, hv1u, hupd1]
  · simp [alunosHandleSubmitCreate, hv2, hins2]
  · simp [alunosHandleSubmitUpdate, hv2u, hupd2]
  · simp [matriculasHandleSubmit, hins3, hdup3]
  · simp [matriculasHandleSubmit, hins3n, hdup3n]

/-- A concrete database for C7: admin caller, two courses, two students and
one enrollment, so that the store rejects duplicate inserts, colliding
updates and a dangling enrollment insert. -/
def dbC7 : DB :=
  { auth_users := [⟨"adm", "adm at example", none⟩],
    profiles := [⟨"adm", "Admin", "adm at example", 0, 0⟩],
    user_roles := [⟨"r1", "adm", AppRole.admin, 0⟩],
    cursos := [⟨"c1", "Engenharia de Software", "ENG-SW", 8, 0, 0⟩,
               ⟨"c2", "Direito", "DIR", 10, 0, 0⟩],
    alunos := [⟨"a1", "Ana Silva", "2025-1-0001", "111.111.111-11",
                "ana@x.br", "2000-01-01", none, StatusMatricula.ATIVO, 0, 0⟩,
               ⟨"a2", "Bruno Costa", "2025-1-0002", "222.222.222-22",
                "bruno@x.br", "2000-02-02", none, StatusMatricula.ATIVO, 0, 0⟩],
    matriculas := [⟨"m1", "a1", "c1", 2025, 1, 0⟩] }

/-- Witness for the amended C7: duplicate create and colliding update
rejections are surfaced on the course and student paths, the duplicate
enrollment gets the friendly hint, a foreign-key rejection of an enrollment
is shown verbatim, and a rejection of the student soft delete is dropped. -/
theorem C7_amended_witness :
    cursosHandleSubmitCreate dbC7 (some "adm") ⟨"Engenharia de Software", "ENG-2", 6⟩ "n9" 1
      = ⟨true, .errorToast "Erro ao salvar curso"
          "duplicate key value violates unique constraint cursos_nome_key", dbC7⟩ ∧
    cursosHandleSubmitUpdate dbC7 (some "adm") "c2" ⟨"Engenharia de Software", "DIR", 4⟩ 1
      = ⟨true, .errorToast "Erro ao salvar curso"
          "duplicate key value violates unique constraint cursos_nome_key", dbC7⟩ ∧
    alunosHandleSubmitUpdate dbC7 (some "adm") "a2"
        ⟨"Bruno Costa", "2025-1-0002", "222.222.222-22", "ana@x.br", "2000-02-02", "",
          StatusMatricula.ATIVO⟩ 1
      = ⟨true, .errorToast "Erro ao salvar aluno"
          "duplicate key value violates unique constraint alunos_matricula_key", dbC7⟩ ∧
    matriculasHandleSubmit dbC7 (some "adm") ⟨"a1", "c1", 2026, 2⟩ "n9" 1
      = ⟨true, .errorToast "Erro ao matricular" "Aluno já está matriculado neste curso", dbC7⟩ ∧
    matriculasHandleSubmit dbC7 (some "adm") ⟨"a9", "c1", 2025, 1⟩ "n9" 1
      = ⟨true, .errorToast "Erro ao matricular"
          "insert or update on table matriculas violates foreign key constraint matriculas_aluno_id_fkey",
          dbC7⟩ ∧
    (alunosHandleDeleteResp dbC7 (.error .policyDenied)).outcome = ClientOutcome.silent :=
  have h := C7_amended_rejection_surfacing dbC7 (some "adm") "n9" "c2" "a2" 1
    ⟨"Engenharia de Software", "ENG-2", 6⟩
    ⟨"Engenharia de Software", "DIR", 4⟩
    ⟨"Ana Claudia", "2025-1-0003", "111.111.111-11", "ac@x.br", "2001-01-01", "",
      StatusMatricula.ATIVO⟩
    ⟨"Bruno Costa", "2025-1-0002", "222.222.222-22", "ana@x.br", "2000-02-02", "",
      StatusMatricula.ATIVO⟩
    ⟨"a1", "c1", 2026, 2⟩
    ⟨"a9", "c1", 2025, 1⟩
    (.uniqueViolation "duplicate key value violates unique constraint cursos_nome_key")
    (.uniqueViolation "duplicate key value violates unique constraint cursos_nome_key")
    (.uniqueViolation "duplicate key value violates unique constraint alunos_cpf_key")
    (.uniqueViolation "duplicate key value violates unique constraint alunos_matricula_key")
    (.uniqueViolation "duplicate key value violates unique constraint matriculas_aluno_id_curso_id_key")
    (.fkViolation "insert or update on table matriculas violates foreign key constraint matriculas_aluno_id_fkey")
    .policyDenied
    (by decide) (by rfl) (by decide) (by rfl) (by decide) (by rfl) (by decide) (by rfl)
    (by rfl) (by decide) (by rfl) (by decide)
  ⟨h.1, h.2.1, h.2.2.2.1, h.2.2.2.2.1, h.2.2.2.2.2.1, h.2.2.2.2.2.2.2.1⟩

theorem cursoSchemaCheck_none_duracao (f : CursoForm) (h : cursoSchemaCheck f = none) :
    1 ≤ f.duracao_semestres := by
  unfold cursoSchemaCheck at h
  split at h
  · exact absurd h (by simp)
  split at h
  · exact absurd h (by simp)
  split at h
  · exact absurd h (by simp)
  next h3 => omega

/-- C9: in every database state reachable through the application, every
course row has a positive duration-in-terms: both module paths that write
course rows (create and update) first pass cursoSchema, whose numeric bound
rejects a duration below 1 before any request is sent. -/
theorem C9_reachable_courses_duration_positive (db : DB) (h : ModuleReachable db) :
    ∀ c ∈ db.cursos, 1 ≤ c.duracao_semestres := by
  induction h with
  | empty => intro c hc; exact absurd hc (by simp [emptyDB])
  | adminSeed db0 ur hr ih => exact ih
  | signup db0 nu now hr ih =>
    cases hres : createAuthUser db0 nu now with
    | error e => simpa [applyResult, hres] using ih
    | ok db2 =>
      have hdb2 := createAuthUser_ok db0 nu now db2 hres
      subst hdb2
      simpa [applyResult, hres] using ih
  | cursoCreate db0 uid f newId now hr ih =>
    unfold cursosHandleSubmitCreate
    cases hv : cursoSchemaCheck f with
    | some msg => exact ih
    | none =>
      cases hins : insertCurso db0 uid (cursoOfForm f newId now) with
      | error e => exact ih
      | ok db2 =>
        have hdb2 := insertCurso_ok db0 uid _ db2 hins
        subst hdb2
        intro c hc
        rcases List.mem_cons.mp hc with hc | hc
        · subst hc
          exact cursoSchemaCheck_none_duracao f hv
        · exact ih c hc
  | cursoUpdate db0 uid editId f now hr ih =>
    unfold cursosHandleSubmitUpdate
    cases hv : cursoSchemaCheck f with
    | some msg => exact ih
    | none =>
      cases hupd : updateCurso db0 uid editId (cursoAssignOfForm f) now with
      | error e => exact ih
      | ok db2 =>
        have hdb2 := updateCurso_ok db0 uid editId _ now db2 hupd
        subst hdb2
        intro c hc
        rcases List.mem_map.mp hc with ⟨x, hx, hfx⟩
        by_cases htgt : cursoUpdTarget db0 uid editId x = true
        · rw [if_pos htgt] at hfx
          subst hfx
          exact cursoSchemaCheck_none_duracao f hv
        · rw [if_neg htgt] at hfx
          subst hfx
          exact ih x hx
  | cursoDelete db0 uid cid hr ih =>
    intro c hc
    simp only [cursosHandleSubmitCreate, cursosHandleDelete, cursosHandleDeleteResp,
      deleteCurso] at hc
    exact ih c (List.mem_of_mem_filter hc)
  | alunoCreate db0 uid f newId now hr ih =>
    unfold alunosHandleSubmitCreate
    cases hv : alunoSchemaCheck f with
    | some msg => exact ih
    | none =>
      cases hins : insertAluno db0 uid (alunoOfForm f newId now) with
      | error e => exact ih
      | ok db2 =>
        have hdb2 := insertAluno_ok db0 uid _ db2 hins
        subst hdb2
        exact ih
  | alunoUpdate db0 uid editId f now hr ih =>
    unfold alunosHandleSubmitUpdate
    cases hv : alunoSchemaCheck f with
    | some msg => exact ih
    | none =>
      cases hupd : updateAluno db0 uid editId (alunoAssignOfForm f) now with
      | error e => exact ih
      | ok db2 =>
        have hdb2 := updateAluno_ok db0 uid editId _ now db2 hupd
        subst hdb2
        exact ih
  | alunoDeactivate db0 uid aid now hr ih =>
    unfold alunosHandleDelete alunosHandleDeleteResp
    cases hupd : updateAluno db0 uid aid
        (fun a => { a with status := StatusMatricula.INATIVO }) now with
    | error e => exact ih
    | ok db2 =>
      have hdb2 := updateAluno_ok db0 uid aid _ now db2 hupd
      subst hdb2
      exact ih
  | matriculaCreate db0 uid f newId now hr ih =>
    unfold matriculasHandleSubmit
    cases hins : insertMatricula db0 uid (matriculaOfForm f newId now) with
    | error e => exact ih
    | ok db2 =>
      have hdb2 := insertMatricula_ok db0 uid _ db2 hins
      subst hdb2
      exact ih
  | matriculaDelete db0 uid mid hr ih => exact ih

/-- Witness for C9: seed an admin, create a course through the module, and
read off its positive duration. -/
theorem C9_witness :
    (1 : Int) ≤ (Curso.mk "c1" "Engenharia de Software" "ENG-SW" 8 0 0).duracao_semestres :=
  C9_reachable_courses_duration_positive _
    (ModuleReachable.cursoCreate { emptyDB with user_roles := [⟨"r1", "adm", AppRole.admin, 0⟩] }
      (some "adm") ⟨"Engenharia de Software", "ENG-SW", 8⟩ "c1" 0
      (ModuleReachable.adminSeed emptyDB ⟨"r1", "adm", AppRole.admin, 0⟩ ModuleReachable.empty))
    (Curso.mk "c1" "Engenharia de Software" "ENG-SW" 8 0 0) (by decide)

theorem mem_insertByKey {α : Type} (key : α → String) (y x : α) (l : List α) :
    x ∈ insertByKey key y l ↔ x = y ∨ x ∈ l := by
  induction l with
  | nil => simp [insertByKey]
  | cons z zs ih =>
    unfold insertByKey
    cases hcmp : compare (key y) (key z) with
    | gt =>
      simp only [List.mem_cons, ih]
      tauto
    | lt => simp only [List.mem_cons]
    | eq => simp only [List.mem_cons]

theorem mem_sortByKey {α : Type} (key : α → String) (l : List α) (x : α) :
    x ∈ sortByKey key l ↔ x ∈ l := by
  induction l with
  | nil => simp [sortByKey]
  | cons z zs ih =>
    unfold sortByKey
    rw [mem_insertByKey, ih, List.mem_cons]

/-- C10: the new-enrollment form offers only students whose status is ATIVO:
every option in fetchAlunos's result comes from an ATIVO student row, and
(with the primary key making ids unique) no student whose status is INATIVO,
TRANCADO or FORMADO appears in the selection list. -/
theorem C10_enrollment_form_offers_only_active
    (db : DB) (a : Aluno)
    (hmem : a ∈ db.alunos) (hst : a.status ≠ StatusMatricula.ATIVO)
    (hids : (db.alunos.map (fun x => x.id)).Nodup) :
    (∀ o ∈ fetchAlunosAtivos db, o.id ≠ a.id) ∧
    (∀ o ∈ fetchAlunosAtivos db, ∃ b ∈ db.alunos,
      b.status = StatusMatricula.ATIVO ∧ o = ⟨b.id, b.nome_completo, b.matricula⟩) := by
  have hsrc : ∀ o ∈ fetchAlunosAtivos db, ∃ b ∈ db.alunos,
      b.status = StatusMatricula.ATIVO ∧ o = ⟨b.id, b.nome_completo, b.matricula⟩ := by
    intro o ho
    unfold fetchAlunosAtivos at ho
    rcases List.mem_map.mp ho with ⟨b, hb, hob⟩
    have hb2 := (mem_sortByKey _ _ _).mp hb
    have hb3 := List.mem_filter.mp hb2
    exact ⟨b, hb3.1, by simpa using hb3.2, hob.symm⟩
  refine ⟨?_, hsrc⟩
  intro o ho hoa
  rcases hsrc o ho with ⟨b, hbmem, hbst, hbo⟩
  have hbid : b.id = a.id := by rw [hbo] at hoa; exact hoa
  have hba : b = a := List.inj_on_of_nodup_map hids hbmem hmem hbid
  rw [hba] at hbst
  exact hst hbst

/-- A database with one ATIVO and one INATIVO student. -/
def dbC10 : DB :=
  { auth_users := [],
    profiles := [],
    user_roles := [],
    cursos := [⟨"c1", "Engenharia de Software", "ENG-SW", 8, 0, 0⟩],
    alunos := [⟨"a1", "Ana Silva", "2025-1-0001", "111.111.111-11",
                "ana at example", "2000-01-01", none, StatusMatricula.ATIVO, 0, 0⟩,
               ⟨"a2", "Bruno Costa", "2025-1-0002", "222.222.222-22",
                "bruno at example", "2000-02-02", none, StatusMatricula.INATIVO, 0, 0⟩],
    matriculas := [] }

/-- Witness for C10: the INATIVO student a2 is not offered; the one offered
option is the ATIVO student a1. -/
theorem C10_witness :
    (⟨"a1", "Ana Silva", "2025-1-0001"⟩ : AlunoOption).id ≠ "a2" :=
  (C10_enrollment_form_offers_only_active dbC10
      ⟨"a2", "Bruno Costa", "2025-1-0002", "222.222.222-22",
        "bruno at example", "2000-02-02", none, StatusMatricula.INATIVO, 0, 0⟩
      (by decide) (by decide) (by decide)).1
    ⟨"a1", "Ana Silva", "2025-1-0001"⟩ (by decide)

end AcademicApp
